import Mathlib

/-!
# Verification of the libq bounded channel and tcp-socket adapter

Shallow embedding of `src/libs/q/include/q/channel.hpp`
(`q::detail::shared_channel`) and of the relevant handlers of
`src/libs/q-io/src/impl/tcp_socket.cpp` (`i_close`, `read_cb`,
`read_again`), together with proofs about the embedded code.

The channel's mutex serializes every operation, so each operation is
embedded as a pure state transformer; interleavings are sequences of
whole operations.  The `std::atomic` fields `closed_` and `paused_`
are plain `Bool` fields under this atomicity.  The resume task that
`receive` schedules on `default_queue_` is modelled by a counter
`pendingResumes` of queued-but-not-yet-run resume tasks, executed by a
separate `runResume` step, so arbitrary executor scheduling is covered.

Ghost fields (`events`, `ghostNotifyFires`) record the history of
`paused_ := true` stores, paused→unpaused transitions, and
`resume_notification_` invocations; they influence nothing.
-/

namespace LibQ

/-- `channel_closed_exception` (channel.hpp line 31). -/
inductive ChanError where
  | channelClosed
  deriving DecidableEq, Repr

/-- Ghost event recorded in a channel's history:
`pauseSet` is one execution of the store `paused_ = true` (send path);
`trans k` is one paused→unpaused transition performed by `resume( )`
(the successful `paused_.exchange( false )`), where `k` counts how many
times that transition invoked `resume_notification_`. -/
inductive CEvent where
  | pauseSet
  | trans (fired : Nat)
  deriving DecidableEq, Repr

/-- State of `q::detail::shared_channel< T... >` (channel.hpp 49-219).
Waiters (`std::list< std::shared_ptr< defer_type > >`) are represented
by identifiers handed out by `receive`; scopes by opaque tokens.
`has_notification` is whether `resume_notification_` holds a callable
task.  `events` and `ghostNotifyFires` are ghost history. -/
structure Chan (α : Type) where
  queue : List α
  waiters : List Nat
  closed : Bool
  paused : Bool
  buffer_count : Nat
  resume_count : Nat
  has_notification : Bool
  scopes : List Nat
  pendingResumes : Nat
  nextWaiter : Nat
  events : List CEvent
  ghostNotifyFires : Nat
  deriving DecidableEq, Repr

/-- `default_resume_count` (channel.hpp 44-47):
`count < 3 ? count : ( ( count * 3 ) / 4 )`, computed in
`std::size_t`: the multiplication `count * 3` wraps modulo `2 ^ 64`
(the comparison and the division by 4 cannot overflow for a `size_t`
argument). -/
def default_resume_count (count : Nat) : Nat :=
  if count < 3 then count else (count * 3 % 2 ^ 64) / 4

/-- The `shared_channel` constructor (channel.hpp 58-69): stores
`buffer_count` and `std::min( resume_count, buffer_count )`, starts
not closed, not paused, with empty queue, waiters and scopes. -/
def mkChannel (α : Type) (buffer_count resume_count : Nat) : Chan α :=
  { queue := []
    waiters := []
    closed := false
    paused := false
    buffer_count := buffer_count
    resume_count := min resume_count buffer_count
    has_notification := false
    scopes := []
    pendingResumes := 0
    nextWaiter := 0
    events := []
    ghostNotifyFires := 0 }

/-- The channel constructed with the defaulted low watermark
(channel.hpp 467-473). -/
def mkChannelDefault (α : Type) (buffer_count : Nat) : Chan α :=
  mkChannel α buffer_count (default_resume_count buffer_count)

/-- `is_closed` (channel.hpp 71-74). -/
def is_closed {α : Type} (s : Chan α) : Bool :=
  s.closed

/-- `should_send` (channel.hpp 165-168): `!paused_ && !closed_`. -/
def should_send {α : Type} (s : Chan α) : Bool :=
  !s.paused && !s.closed

/-- `resume` (channel.hpp 198-206): `paused_.exchange( false )`; when
the old value was `true` this is a paused→unpaused transition and
`resume_notification_` is invoked if it holds a task.  Ghost: logs one
`trans` event carrying the number of invocations (0 or 1). -/
def resume {α : Type} (s : Chan α) : Chan α :=
  if s.paused then
    { s with
        paused := false
        events := s.events ++ [CEvent.trans (if s.has_notification then 1 else 0)]
        ghostNotifyFires :=
          s.ghostNotifyFires + (if s.has_notification then 1 else 0) }
  else
    s

/-- What `send` did: buffered the tuple, or resolved a parked waiter. -/
inductive SendOutcome where
  | buffered
  | toWaiter (id : Nat)
  deriving DecidableEq, Repr

/-- `send` (channel.hpp 100-121).  Under the lock: if `closed_`, throw
`channel_closed_exception`; else if no waiter is parked, store
`paused_ = true` when `queue_.size( ) >= buffer_count_` (checked
BEFORE the push) and push the tuple; else pop the front waiter and
resolve it with the tuple.  Returns the state and the thrown/normal
result. -/
def send {α : Type} (v : α) (s : Chan α) :
    Chan α × Except ChanError SendOutcome :=
  if s.closed then
    (s, Except.error ChanError.channelClosed)
  else
    match s.waiters with
    | [] =>
        let s1 :=
          if s.queue.length ≥ s.buffer_count then
            { s with paused := true, events := s.events ++ [CEvent.pauseSet] }
          else
            s
        ({ s1 with queue := s1.queue ++ [v] }, Except.ok SendOutcome.buffered)
    | w :: rest =>
        ({ s with waiters := rest }, Except.ok (SendOutcome.toWaiter w))

/-- The promise `receive` returns: already resolved with a value,
already rejected, or the promise of a freshly parked waiter. -/
inductive RecvResult (α : Type) where
  | resolved (v : α)
  | rejected (e : ChanError)
  | waiting (id : Nat)
  deriving DecidableEq, Repr

/-- `receive` (channel.hpp 123-163).  If the queue is empty: when
`closed_`, return a rejected promise; otherwise park a fresh waiter,
call `resume( )` synchronously, and return its promise.  If the queue
is non-empty: pop the front value, schedule a `resume` task on
`default_queue_` when the new size is below `resume_count_`, and
return a promise already resolved with the value. -/
def receive {α : Type} (s : Chan α) : Chan α × RecvResult α :=
  match s.queue with
  | [] =>
      if s.closed then
        (s, RecvResult.rejected ChanError.channelClosed)
      else
        let s1 := { s with
            waiters := s.waiters ++ [s.nextWaiter]
            nextWaiter := s.nextWaiter + 1 }
        (resume s1, RecvResult.waiting s.nextWaiter)
  | v :: rest =>
      let s1 := { s with queue := rest }
      let s2 :=
        if rest.length < s.resume_count then
          { s1 with pendingResumes := s1.pendingResumes + 1 }
        else
          s1
      (s2, RecvResult.resolved v)

/-- `close` (channel.hpp 76-98).  Sets `closed_`, rejects and clears
all waiters, clears the scopes, snapshots `resume_notification_`, and
after releasing the lock invokes the snapshot if present — on every
call, not only the first.  Ghost: counts the invocation. -/
def closeCh {α : Type} (s : Chan α) : Chan α :=
  { s with
      closed := true
      waiters := []
      scopes := []
      ghostNotifyFires :=
        s.ghostNotifyFires + (if s.has_notification then 1 else 0) }

/-- `set_resume_notification` (channel.hpp 170-175): replaces the
stored task; `b` is whether the new task is callable. -/
def set_resume_notification {α : Type} (b : Bool) (s : Chan α) : Chan α :=
  { s with has_notification := b }

/-- `add_scope_until_closed` (channel.hpp 181-190): keeps the scope
unless already closed. -/
def add_scope_until_closed {α : Type} (t : Nat) (s : Chan α) : Chan α :=
  if s.closed then s else { s with scopes := s.scopes ++ [t] }

/-- One whole-operation step an environment can perform on a channel:
the public operations, plus the executor running one scheduled resume
task. -/
inductive ChanOp (α : Type) where
  | send (v : α)
  | recv
  | close
  | runResume
  | setNotif (b : Bool)
  | addScope (t : Nat)

/-- Execute one operation, projecting away promise results.
`runResume` runs one queued resume task (a no-op when none is
queued). -/
def stepOp {α : Type} (s : Chan α) : ChanOp α → Chan α
  | ChanOp.send v => (send v s).1
  | ChanOp.recv => (receive s).1
  | ChanOp.close => closeCh s
  | ChanOp.runResume =>
      if s.pendingResumes > 0 then
        resume { s with pendingResumes := s.pendingResumes - 1 }
      else
        s
  | ChanOp.setNotif b => set_resume_notification b s
  | ChanOp.addScope t => add_scope_until_closed t s

/-- Run a list of operations from a state. -/
def runOps {α : Type} (s : Chan α) (ops : List (ChanOp α)) : Chan α :=
  ops.foldl stepOp s

/-- States reachable from a fresh channel by any sequence of
operations. -/
inductive ChanReachable (B r : Nat) : Chan Nat → Prop where
  | init : ChanReachable B r (mkChannel Nat B r)
  | step (s : Chan Nat) (op : ChanOp Nat) :
      ChanReachable B r s → ChanReachable B r (stepOp s op)

/-- A producer step that only sends while `should_send( )` reports
room, as the backpressure protocol asks of producers. -/
def sendIfShould {α : Type} (v : α) (s : Chan α) : Chan α :=
  if should_send s then (send v s).1 else s

/-- Fold a list of values through a `should_send`-honoring producer. -/
def fillOnly {α : Type} (vs : List α) (s : Chan α) : Chan α :=
  vs.foldl (fun t v => sendIfShould v t) s

/-! ## tcp_socket pimpl (tcp_socket.cpp) -/

/-- `UV_EOF` from libuv: the end-of-file sentinel delivered as a
negative byte count to `read_cb`. -/
def UV_EOF : Int := -4095

/-- State of `tcp_socket::pimpl` as touched by `i_close`, `read_cb`
and `read_again` (tcp_socket.cpp).  The two channel endpoints are
represented by presence flags plus a record of how each underlying
channel was closed (`none` = not closed by the socket; `some cause`
= closed, with `cause = none` for success and `some e` for an attached
error).  `write_reqs_` holds `(request identity, buf_len_)` pairs;
`reading` is whether `uv_read_start` is active. -/
structure TcpPimpl where
  closed_ : Bool
  writable_in_ : Bool
  readable_out_ : Bool
  in_close_cause : Option (Option Int)
  out_close_cause : Option (Option Int)
  in_resume_notif : Bool
  reading : Bool
  keep_alive_ : Bool
  handle_close_initiated : Bool
  write_reqs_ : List (Nat × Nat)
  cached_bytes_ : Nat
  cache_size : Nat
  deriving DecidableEq, Repr

/-- `tcp_socket::pimpl::i_close` (tcp_socket.cpp 53-87): returns at
once when already closed; otherwise sets `closed_`, refreshes
`keep_alive_`, clears the inbound resume notification and closes the
inbound writable with the status's exception (or cleanly), closes the
outbound readable likewise, stops OS reads, drops both endpoint
pointers, and initiates the OS handle close. -/
def i_close (status : Option Int) (p : TcpPimpl) : TcpPimpl :=
  if p.closed_ then
    p
  else
    { p with
        closed_ := true
        keep_alive_ := true
        in_resume_notif := false
        in_close_cause :=
          if p.writable_in_ then some status else p.in_close_cause
        out_close_cause :=
          if p.readable_out_ then some status else p.out_close_cause
        reading := false
        writable_in_ := false
        readable_out_ := false
        handle_close_initiated := true }

/-- Socket state for the inbound path: the pimpl together with the
inbound channel that `writable_in_` points to, and a ghost flag
recording whether `read_cb` freed the allocated buffer. -/
structure SockState where
  pimpl : TcpPimpl
  chan_in : Chan Nat
  buf_freed : Bool
  deriving DecidableEq, Repr

/-- Modelled from the spec: `writable< T >::write` — the send used by
the read callback (`pimpl->writable_in_->write( ... )`,
tcp_socket.cpp 120) is not in `src/` (src's channel.hpp only has the
throwing `send`).  Per spec §4.3.1 and §9, it attempts the send and
its return value reports whether the channel had been closed: `false`
iff the channel was closed (the value is dropped), `true` on
success. -/
def writableWrite {α : Type} (v : α) (s : Chan α) : Bool × Chan α :=
  match send v s with
  | (s', Except.ok _) => (true, s')
  | (s', Except.error _) => (false, s')

/-- Modelled from the spec: `writable< T >::should_write`
(tcp_socket.cpp 122) is not in `src/`; per spec §4.3.1 it is the
channel's `should_send` hint. -/
def writableShouldWrite {α : Type} (s : Chan α) : Bool :=
  should_send s

/-- `tcp_socket::pimpl::stop_read` (tcp_socket.cpp 152-172): stops OS
reads; when `reschedule` is set, additionally installs a resume
notification on the inbound channel that will restart reading. -/
def stop_readS (reschedule : Bool) (st : SockState) : SockState :=
  let st1 : SockState := { st with pimpl := { st.pimpl with reading := false } }
  if reschedule then
    { st1 with
        pimpl := { st1.pimpl with in_resume_notif := true }
        chan_in := set_resume_notification true st1.chan_in }
  else
    st1

/-- `i_close` lifted to `SockState`: the pimpl transition together
with its effect on the inbound channel (`unset_resume_notification`
then `close`, tcp_socket.cpp 66-70; src's channel `close` takes no
cause, the cause is recorded in the pimpl). -/
def i_closeS (status : Option Int) (st : SockState) : SockState :=
  if st.pimpl.closed_ then
    st
  else
    { st with
        pimpl := i_close status st.pimpl
        chan_in :=
          if st.pimpl.writable_in_ then
            closeCh (set_resume_notification false st.chan_in)
          else
            st.chan_in }

/-- The read completion callback `read_cb` (tcp_socket.cpp 103-147).
`nread > 0`: wrap the buffer as a byte block (modelled by its length)
and `write` it into the inbound channel; a failed write (channel
closed) stops reading without rescheduling, and a write after which
`should_write` is false stops reading with rescheduling.  Otherwise
the unused buffer is freed; `UV_EOF` closes the socket cleanly, any
other negative count is translated by `translate` (the composition
`get_exception_by_errno ∘ uv_error_to_errno`, external to this core)
and the socket is closed with that error.  `nread = 0` only frees. -/
def read_cb (translate : Int → Int) (nread : Int) (buf_alloc : Bool)
    (st : SockState) : SockState :=
  if 0 < nread then
    let r := writableWrite nread.toNat st.chan_in
    let st1 : SockState := { st with chan_in := r.2 }
    if r.1 = false then
      stop_readS false st1
    else if writableShouldWrite st1.chan_in = false then
      stop_readS true st1
    else
      st1
  else
    let st1 : SockState :=
      if buf_alloc then { st with buf_freed := true } else st
    if nread = UV_EOF then
      i_closeS none st1
    else if nread < 0 then
      i_closeS (some (translate nread)) st1
    else
      st1

/-- Result of the write completion callback: the new pimpl state,
whether `begin_write` was re-invoked, and whether the handler ran into
undefined behaviour (dereferencing the end iterator). -/
structure ReadAgainRes where
  pimpl : TcpPimpl
  wrote_more : Bool
  ub : Bool
  deriving DecidableEq, Repr

/-- `size_t` subtraction: wraps modulo `2 ^ 64`. -/
def szSub (a b : Nat) : Nat :=
  (a + (2 ^ 64 - b % 2 ^ 64)) % 2 ^ 64

/-- The write completion callback `read_again` (tcp_socket.cpp
179-229).  It looks up the completed request in `write_reqs_` by
request identity.  When the lookup fails the code prints a warning and
calls `i_close` — but does NOT return: it then dereferences the end
iterator (`iter->buf_len_`), which is undefined behaviour, modelled by
the `ub` flag.  When found: remove the descriptor, decrement
`cached_bytes_` by its recorded length, note whether the cached level
crossed from `≥ cache_size` down below it, and on success re-invoke
`begin_write` if it did; on failure close the socket. -/
def read_again (req : Nat) (status : Int) (p : TcpPimpl) : ReadAgainRes :=
  match p.write_reqs_.find? (fun it => it.1 == req) with
  | none =>
      { pimpl := i_close none p, wrote_more := false, ub := true }
  | some it =>
      let buf_size := it.2
      let reqs' := p.write_reqs_.eraseP (fun it => it.1 == req)
      let size_before := p.cached_bytes_
      let cached' := szSub size_before buf_size
      let should_write_more :=
        decide (size_before ≥ p.cache_size) && decide (cached' < p.cache_size)
      let p1 := { p with write_reqs_ := reqs', cached_bytes_ := cached' }
      if status = 0 then
        { pimpl := p1, wrote_more := should_write_more, ub := false }
      else
        { pimpl := i_close none p1, wrote_more := false, ub := false }

/-! ## History predicates and concrete instances -/

/-- Non-ghost projection of a channel state: every field the C++
object owns (ghost history fields excluded). -/
def chanCore {α : Type} (s : Chan α) :
    List α × List Nat × Bool × Bool × Nat × Nat × Bool × List Nat × Nat × Nat :=
  (s.queue, s.waiters, s.closed, s.paused, s.buffer_count, s.resume_count,
   s.has_notification, s.scopes, s.pendingResumes, s.nextWaiter)

/-- Scan a chronological event history: `armed` is whether a
`paused_ = true` store has happened since the last paused→unpaused
transition.  `goodFrom` checks that every transition happens while
armed: strictly between any two transitions (and before the first)
there is at least one `paused_ = true` store. -/
def goodFrom : Bool → List CEvent → Bool
  | _, [] => true
  | _, CEvent.pauseSet :: es => goodFrom true es
  | armed, CEvent.trans _ :: es => armed && goodFrom false es

/-- The `armed` value after scanning a chronological event history. -/
def armedAfter : Bool → List CEvent → Bool
  | armed, [] => armed
  | _, CEvent.pauseSet :: es => armedAfter true es
  | _, CEvent.trans _ :: es => armedAfter false es

/-- Coupling invariant for a channel's ghost history: the history is
well-formed (`goodFrom`), its final armed state coincides with the
live `paused_` flag, and no transition invoked the notification more
than once. -/
def historyInv {α : Type} (s : Chan α) : Prop :=
  goodFrom false s.events = true ∧
  armedAfter false s.events = s.paused ∧
  ∀ k, CEvent.trans k ∈ s.events → k ≤ 1

/-- Scenario S1: four sends on an initially empty channel with
capacity 4 and low watermark 3. -/
def s14 : Chan Nat :=
  runOps (mkChannel Nat 4 3)
    [ChanOp.send 1, ChanOp.send 2, ChanOp.send 3, ChanOp.send 4]

/-- A channel trace on capacity 2 in which every send goes through
the `should_send` guard (`sendIfShould`), with one receive and the
executor running the resume task it scheduled: the guarded producer
ends with 4 buffered values on a capacity-2 channel. -/
def overfullTrace : Chan Nat :=
  let s0 := mkChannel Nat 2 2
  let s1 := sendIfShould 1 s0
  let s2 := sendIfShould 2 s1
  let s3 := (receive s2).1
  let s4 := sendIfShould 3 s3
  let s5 := sendIfShould 4 s4
  let s6 := stepOp s5 ChanOp.runResume
  sendIfShould 5 s6

/-- A fresh channel whose `resume_notification_` holds a task. -/
def notifChan : Chan Nat :=
  set_resume_notification true (mkChannel Nat 1 1)

/-- A channel that buffered the value 5 and was then closed. -/
def closedWithValue : Chan Nat :=
  closeCh (send 5 (mkChannel Nat 2 2)).1

/-- A live socket pimpl with one in-flight write descriptor
(request identity 1, buffer length 10). -/
def pimpl0 : TcpPimpl :=
  { closed_ := false
    writable_in_ := true
    readable_out_ := true
    in_close_cause := none
    out_close_cause := none
    in_resume_notif := false
    reading := true
    keep_alive_ := true
    handle_close_initiated := false
    write_reqs_ := [(1, 10)]
    cached_bytes_ := 10
    cache_size := 65536 }

/-- A freshly attached socket state: live pimpl, inbound channel of
capacity `backlog_in = 6` with the defaulted low watermark. -/
def sock0 : SockState :=
  { pimpl := { pimpl0 with write_reqs_ := [], cached_bytes_ := 0 }
    chan_in := mkChannelDefault Nat 6
    buf_freed := false }

/-! ## Theorems -/

/-- C2 (code_bug evidence): on a channel with `buffer_count = 4`,
`resume_count = 3`, starting empty, the code of `send` checks
`queue_.size( ) >= buffer_count_` BEFORE pushing, so after sending 4
values the queue holds all 4 values yet `paused_` is still `false`
and `should_send( )` still returns `true` — the spec (and its
scenario S1) requires `paused == true` and `should_send( ) == false`
after the 4th send. -/
theorem paused_unset_after_four_sends :
    s14.paused = false ∧ should_send s14 = true ∧ s14.queue.length = 4 := by
  decide

/-- C9 (counterexample): the constructor only clamps the explicit
`resume_count` from above (`std::min( resume_count, buffer_count )`),
so a channel constructed with `buffer_count = 4`, `resume_count = 0`
stores `resume_count = 0`; and even the defaulted low watermark can
be 0: at `buffer_count = 6148914691236517206` the `size_t` product
`count * 3` wraps to 2 and the default is `2 / 4 = 0`.  Both refute
`1 ≤ resume_count`. -/
theorem resume_count_zero_cex :
    ¬ 1 ≤ (mkChannel Nat 4 0).resume_count ∧
    ¬ 1 ≤ (mkChannelDefault Nat 6148914691236517206).resume_count := by
  decide

/-- C9 (amended): the stored low watermark is
`min resume_count buffer_count`, hence always `≤ buffer_count`, for
explicit and defaulted `resume_count` alike; when `buffer_count ≥ 1`
and the `size_t` product `buffer_count * 3` does not wrap, the
defaulted channel also satisfies `1 ≤ resume_count`, and the default
equals `buffer_count` when `buffer_count < 3`, else
`⌊3·buffer_count/4⌋`.  An explicit `resume_count` below 1 is stored
as given, and a wrapping `buffer_count * 3` can drive the default
(hence the stored watermark) to 0. -/
theorem resume_count_bounds (B r : Nat) :
    (mkChannel Nat B r).resume_count = min r B ∧
    (mkChannel Nat B r).resume_count ≤ B ∧
    (mkChannelDefault Nat B).resume_count ≤ B ∧
    (1 ≤ B → B * 3 < 2 ^ 64 →
      1 ≤ (mkChannelDefault Nat B).resume_count) ∧
    (B * 3 < 2 ^ 64 →
      default_resume_count B = (if B < 3 then B else B * 3 / 4)) := by
  refine ⟨rfl, Nat.min_le_right r B, Nat.min_le_right _ B,
    fun hB hw => ?_, fun hw => ?_⟩
  · have h1 : 1 ≤ default_resume_count B := by
      unfold default_resume_count
      split
      · exact hB
      · rw [Nat.mod_eq_of_lt hw, Nat.le_div_iff_mul_le (by norm_num)]
        omega
    have hle : default_resume_count B ≤ B := by
      unfold default_resume_count
      split
      · exact Nat.le_refl B
      · rw [Nat.mod_eq_of_lt hw]
        exact Nat.div_le_of_le_mul (by omega)
    exact le_min h1 (le_trans h1 hle)
  · unfold default_resume_count
    rw [Nat.mod_eq_of_lt hw]

/-- C9 (witness): at `buffer_count = 4` (where the product 12 does
not wrap) the defaulted channel has `resume_count = ⌊3·4/4⌋ = 3 ≥ 1`
and the default formula holds. -/
theorem resume_count_bounds_check :
    1 ≤ (mkChannelDefault Nat 4).resume_count ∧
    default_resume_count 4 = (if 4 < 3 then 4 else 4 * 3 / 4) :=
  ⟨(resume_count_bounds 4 0).2.2.2.1 (by decide) (by decide),
   (resume_count_bounds 4 0).2.2.2.2 (by decide)⟩

/-- C10: `send` on a closed channel throws
`channel_closed_exception` before touching anything: the returned
state is the argument state itself, so `queue`, `waiters`, `paused`
and `scopes` are exactly as before the call. -/
theorem send_closed_noop {α : Type} (v : α) (s : Chan α)
    (h : s.closed = true) :
    (send v s).1 = s ∧
    (send v s).2 = Except.error ChanError.channelClosed := by
  simp [send, h]

/-- C10 (witness): sending 7 on a concretely closed channel fails and
leaves the state untouched. -/
theorem send_closed_noop_check :
    (send 7 (closeCh (mkChannel Nat 1 1))).1 = closeCh (mkChannel Nat 1 1) ∧
    (send 7 (closeCh (mkChannel Nat 1 1))).2 =
      Except.error ChanError.channelClosed :=
  send_closed_noop 7 (closeCh (mkChannel Nat 1 1)) (by decide)

/-- C3 (counterexample): `receive` checks `closed_` only when the
queue is empty, so on a channel that buffered the value 5 and was then
closed, the next `receive` returns a promise resolved with 5, not a
rejected one — refuting "regardless of the channel's state at the
time of the receive". -/
theorem receive_after_close_cex :
    (receive closedWithValue).2 = RecvResult.resolved 5 ∧
    (receive closedWithValue).2 ≠
      RecvResult.rejected ChanError.channelClosed := by
  decide

/-- C3 (amended): after `close`, a `receive` that finds the queue
empty returns a promise rejected with `channel_closed_exception`
(this channel's `close` attaches no cause); while buffered values
remain, `receive` still resolves with the front value. -/
theorem receive_after_close {α : Type} (s : Chan α) (h : s.closed = true) :
    (s.queue = [] →
      (receive s).2 = RecvResult.rejected ChanError.channelClosed) ∧
    (∀ v rest, s.queue = v :: rest → (receive s).2 = RecvResult.resolved v) := by
  constructor
  · intro hq
    simp [receive, hq, h]
  · intro v rest hq
    simp [receive, hq]

/-- C3 (witness): on a concrete closed empty channel the receive is
rejected. -/
theorem receive_after_close_check :
    (receive (closeCh (mkChannel Nat 2 2))).2 =
      RecvResult.rejected ChanError.channelClosed :=
  (receive_after_close (closeCh (mkChannel Nat 2 2)) (by decide)).1 (by decide)

/-- C6 (counterexample): `shared_channel::close` snapshots and
invokes `resume_notification_` on every call, so on a channel whose
notification is set, a second `close` fires the callback a second
time — a callback invocation beyond those of the first close. -/
theorem close_second_call_refires :
    (closeCh (closeCh notifChan)).ghostNotifyFires = 2 ∧
    (closeCh notifChan).ghostNotifyFires = 1 := by
  decide

/-- C6 (amended): `tcp_socket::pimpl::i_close` is fully idempotent
(the second call returns immediately on `closed_`); the channel's
`close` is idempotent on all channel state (queue, waiters, closed,
paused, scopes, watermarks), but re-invokes `resume_notification_` on
every call when one is set. -/
theorem close_idempotent_amended :
    (∀ (p : TcpPimpl) (e e' : Option Int),
      i_close e' (i_close e p) = i_close e p) ∧
    (∀ (s : Chan Nat), chanCore (closeCh (closeCh s)) = chanCore (closeCh s)) ∧
    (∀ (s : Chan Nat),
      (closeCh (closeCh s)).ghostNotifyFires =
        (closeCh s).ghostNotifyFires +
          (if s.has_notification then 1 else 0)) := by
  refine ⟨fun p e e' => ?_, fun s => ?_, fun s => ?_⟩
  · by_cases h : p.closed_ <;> simp [i_close, h]
  · simp [closeCh, chanCore]
  · simp [closeCh]

/-- C1 (counterexample): a concrete operation sequence on a channel
of capacity 2 in which every send is guarded by `should_send` — two
sends, a receive (which schedules a resume task), two more sends, the
executor running the resume task, and one final send — leaves 4
values buffered: more than `buffer_count + 1`.  `send` pushes
unconditionally whenever no waiter is parked, so the queue is not
bounded by the capacity. -/
theorem overfull_after_honored_sends :
    overfullTrace.buffer_count = 2 ∧ overfullTrace.queue.length = 4 ∧
    overfullTrace.buffer_count + 1 < overfullTrace.queue.length := by
  decide

theorem fillOnly_bound_aux {α : Type} (B : Nat) :
    ∀ (vs : List α) (s : Chan α),
      s.buffer_count = B → s.waiters = [] →
      s.queue.length ≤ B + 1 → (s.paused = false → s.queue.length ≤ B) →
      (fillOnly vs s).queue.length ≤ B + 1 := by
  intro vs
  induction vs with
  | nil =>
      intro s _ _ h1 _
      simpa [fillOnly] using h1
  | cons v t ih =>
      intro s hB hw h1 h2
      have hstep : fillOnly (v :: t) s = fillOnly t (sendIfShould v s) := rfl
      rw [hstep]
      by_cases hs : should_send s = true
      · have hp : s.paused = false := by
          have := hs
          unfold should_send at this
          simp at this
          exact this.1
        have hc : s.closed = false := by
          have := hs
          unfold should_send at this
          simp at this
          exact this.2
        have hlen : s.queue.length ≤ B := h2 hp
        by_cases hge : s.buffer_count ≤ s.queue.length
        · have hred : sendIfShould v s =
              { s with
                  paused := true
                  events := s.events ++ [CEvent.pauseSet]
                  queue := s.queue ++ [v] } := by
            simp [sendIfShould, hs, send, hc, hw, hge]
          rw [hred]
          refine ih _ (by simpa using hB) (by simpa using hw) ?_ ?_
          · simp only [List.length_append, List.length_cons, List.length_nil]
            omega
          · intro hfalse
            simp at hfalse
        · have hred : sendIfShould v s = { s with queue := s.queue ++ [v] } := by
            simp [sendIfShould, hs, send, hc, hw, hge]
          rw [hred]
          refine ih _ (by simpa using hB) (by simpa using hw) ?_ ?_
          · simp only [List.length_append, List.length_cons, List.length_nil]
            omega
          · intro _
            simp only [List.length_append, List.length_cons, List.length_nil]
            omega
      · have hred : sendIfShould v s = s := by
          simp [sendIfShould, hs]
        rw [hred]
        exact ih s hB hw h1 h2

/-- C1 (amended): a producer that sends only while `should_send( )`
reports room (`sendIfShould`), with no interleaved receives or resume
executions, keeps at most `buffer_count + 1` values buffered: the one
extra slot is the send that observes `queue.size ≥ buffer_count`,
flips `paused_`, and still pushes.  (With interleaved receives and
executor-scheduled resumes even a guarded producer can exceed this
bound, and an unguarded producer grows the queue without bound.) -/
theorem fill_should_send_bound (vs : List Nat) (B r : Nat) :
    (fillOnly vs (mkChannel Nat B r)).queue.length ≤ B + 1 :=
  fillOnly_bound_aux B vs (mkChannel Nat B r) rfl rfl
    (by simp [mkChannel]) (fun _ => by simp [mkChannel])

theorem stepOp_queue_waiters {α : Type} (s : Chan α) (op : ChanOp α)
    (h : s.queue = [] ∨ s.waiters = []) :
    (stepOp s op).queue = [] ∨ (stepOp s op).waiters = [] := by
  cases op with
  | send v =>
      by_cases hc : s.closed
      · simpa [stepOp, send, hc] using h
      · cases hw : s.waiters with
        | nil =>
            right
            simp only [stepOp, send, hc, hw]
            split
            · simp [hw]
            · split <;> simp [hw]
        | cons w rest =>
            left
            have hq : s.queue = [] := by
              rcases h with h | h
              · exact h
              · rw [hw] at h
                exact absurd h (by simp)
            simp [stepOp, send, hc, hw, hq]
  | recv =>
      cases hq : s.queue with
      | nil =>
          by_cases hc : s.closed
          · left
            simp [stepOp, receive, hq, hc]
          · left
            simp only [stepOp, receive, hq, hc, resume]
            split
            · exact hq
            · split <;> simp
      | cons v rest =>
          have hwaiters : s.waiters = [] := by
            rcases h with h | h
            · rw [hq] at h
              exact absurd h (by simp)
            · exact h
          right
          simp only [stepOp, receive, hq]
          split <;> simp [hwaiters]
  | close =>
      right
      simp [stepOp, closeCh]
  | runResume =>
      by_cases hp : s.pendingResumes > 0
      · simp only [stepOp, hp, if_true, resume]
        split <;> simpa using h
      · simpa [stepOp, hp] using h
  | setNotif b =>
      simpa [stepOp, set_resume_notification] using h
  | addScope t =>
      by_cases hc : s.closed
      · simpa [stepOp, add_scope_until_closed, hc] using h
      · simpa [stepOp, add_scope_until_closed, hc] using h

/-- C4: in every state reachable by any sequence of sends, receives,
closes, executor-run resume tasks, notification changes and scope
additions, the buffered-value queue and the waiter list are never
simultaneously non-empty: `send` buffers only when no waiter is
parked, and `receive` parks a waiter only when nothing is buffered. -/
theorem queue_or_waiters_empty (B r : Nat) (s : Chan Nat)
    (h : ChanReachable B r s) : s.queue = [] ∨ s.waiters = [] := by
  induction h with
  | init => left; rfl
  | step s' op _ ih => exact stepOp_queue_waiters s' op ih

/-- C4 (witness): the invariant at the concrete reachable state after
one send on a fresh capacity-2 channel. -/
theorem queue_or_waiters_empty_check :
    (stepOp (mkChannel Nat 2 2) (ChanOp.send 1)).queue = [] ∨
    (stepOp (mkChannel Nat 2 2) (ChanOp.send 1)).waiters = [] :=
  queue_or_waiters_empty 2 2 _ (ChanReachable.step _ _ ChanReachable.init)

theorem armedAfter_append (a : Bool) (es fs : List CEvent) :
    armedAfter a (es ++ fs) = armedAfter (armedAfter a es) fs := by
  induction es generalizing a with
  | nil => rfl
  | cons e t ih => cases e <;> simp [armedAfter, ih]

theorem goodFrom_append (a : Bool) (es fs : List CEvent) :
    goodFrom a (es ++ fs) =
      (goodFrom a es && goodFrom (armedAfter a es) fs) := by
  induction es generalizing a with
  | nil => simp [goodFrom, armedAfter]
  | cons e t ih => cases e <;> simp [goodFrom, armedAfter, ih, Bool.and_assoc]

theorem resume_historyInv {α : Type} (s : Chan α) (h : historyInv s) :
    historyInv (resume s) := by
  obtain ⟨h1, h2, h3⟩ := h
  unfold resume
  by_cases hp : s.paused
  · simp only [hp, if_true]
    refine ⟨?_, ?_, ?_⟩
    · rw [goodFrom_append, h1, h2, hp]
      simp [goodFrom]
    · rw [armedAfter_append]
      simp [armedAfter]
    · intro k hk
      rw [List.mem_append] at hk
      rcases hk with hk | hk
      · exact h3 k hk
      · simp at hk
        rw [hk]
        split <;> omega
  · simpa [hp] using ⟨h1, h2, h3⟩

theorem stepOp_historyInv {α : Type} (s : Chan α) (op : ChanOp α)
    (h : historyInv s) : historyInv (stepOp s op) := by
  obtain ⟨h1, h2, h3⟩ := h
  cases op with
  | send v =>
      by_cases hc : s.closed
      · simpa [stepOp, send, hc] using ⟨h1, h2, h3⟩
      · cases hw : s.waiters with
        | cons w rest =>
            simp only [stepOp, send, hc, hw]
            exact ⟨h1, h2, h3⟩
        | nil =>
            by_cases hge : s.buffer_count ≤ s.queue.length
            · have hred : stepOp s (ChanOp.send v) =
                  { s with
                      paused := true
                      events := s.events ++ [CEvent.pauseSet]
                      queue := s.queue ++ [v] } := by
                simp [stepOp, send, hc, hw, hge]
              rw [hred]
              refine ⟨?_, ?_, ?_⟩
              · rw [goodFrom_append, h1]
                simp [goodFrom]
              · rw [armedAfter_append]
                simp [armedAfter]
              · intro k hk
                rw [List.mem_append] at hk
                rcases hk with hk | hk
                · exact h3 k hk
                · simp at hk
            · have hred : stepOp s (ChanOp.send v) =
                  { s with queue := s.queue ++ [v] } := by
                simp [stepOp, send, hc, hw, hge]
              rw [hred]
              exact ⟨h1, h2, h3⟩
  | recv =>
      cases hq : s.queue with
      | nil =>
          by_cases hc : s.closed
          · simpa [stepOp, receive, hq, hc] using ⟨h1, h2, h3⟩
          · simp only [stepOp, receive, hq, hc, Bool.false_eq_true, if_false]
            exact resume_historyInv _ ⟨h1, h2, h3⟩
      | cons v rest =>
          simp only [stepOp, receive, hq]
          split <;> exact ⟨h1, h2, h3⟩
  | close =>
      simp only [stepOp, closeCh]
      exact ⟨h1, h2, h3⟩
  | runResume =>
      by_cases hp : s.pendingResumes > 0
      · simp only [stepOp, hp, if_true]
        exact resume_historyInv _ ⟨h1, h2, h3⟩
      · simpa [stepOp, hp] using ⟨h1, h2, h3⟩
  | setNotif b =>
      simp only [stepOp, set_resume_notification]
      exact ⟨h1, h2, h3⟩
  | addScope t =>
      by_cases hc : s.closed
      · simpa [stepOp, add_scope_until_closed, hc] using ⟨h1, h2, h3⟩
      · simp only [stepOp, add_scope_until_closed, hc, Bool.false_eq_true,
          if_false]
        exact ⟨h1, h2, h3⟩

/-- C5: in every reachable state, the chronological ghost history of
`paused_ = true` stores (`pauseSet`) and paused→unpaused transitions
(`trans k`, performed by `resume`'s successful
`paused_.exchange( false )`) is well-formed: every transition is
preceded by a `paused_ = true` store newer than the previous
transition — so between any two distinct transitions there is at
least one intervening `paused_ = true` store — and each transition
invoked `resume_notification_` at most once (`k ≤ 1`).  (`close`'s
unconditional notification call is a close signal, not a
paused→unpaused transition, and performs no `exchange`.) -/
theorem resume_transitions_spec (B r : Nat) (s : Chan Nat)
    (h : ChanReachable B r s) :
    goodFrom false s.events = true ∧
    (∀ k, CEvent.trans k ∈ s.events → k ≤ 1) := by
  have hinv : historyInv s := by
    induction h with
    | init =>
        refine ⟨rfl, rfl, ?_⟩
        intro k hk
        simp [mkChannel] at hk
    | step s' op _ ih => exact stepOp_historyInv s' op ih
  exact ⟨hinv.1, hinv.2.2⟩

/-- C5 (witness): the history invariant at a concrete reachable
state whose history is non-empty (two sends on a capacity-1 channel
record a `pauseSet`). -/
theorem resume_transitions_check :
    goodFrom false (stepOp (stepOp (mkChannel Nat 1 1) (ChanOp.send 1))
      (ChanOp.send 2)).events = true :=
  (resume_transitions_spec 1 1 _
    (ChanReachable.step _ _ (ChanReachable.step _ _ ChanReachable.init))).1

theorem writableWrite_open {α : Type} (v : α) (s : Chan α)
    (hc : s.closed = false) :
    writableWrite v s = (true, (send v s).1) := by
  cases hw : s.waiters with
  | nil => simp [writableWrite, send, hc, hw]
  | cons w rest => simp [writableWrite, send, hc, hw]

/-- C7: the read completion handler.  For `nread > 0` the bytes are
wrapped as a block and written into the inbound channel: if the write
reports the channel closed (exactly when `closed_` was set, and the
channel state is untouched) the handler stops OS reads without
rescheduling; otherwise, if `should_send` is false after the send, it
stops OS reads and installs the resume notification; otherwise it
just returns.  For `nread = UV_EOF` the unused buffer is freed and
`i_close` is called with success; for any other `nread < 0` the
buffer is freed and `i_close` is called with the translated domain
error. -/
theorem read_cb_spec (translate : Int → Int) (nread : Int)
    (buf_alloc : Bool) (st : SockState) :
    (0 < nread → st.chan_in.closed = true →
      read_cb translate nread buf_alloc st = stop_readS false st) ∧
    (0 < nread → st.chan_in.closed = false →
      (should_send (send (Int.toNat nread) st.chan_in).1 = true →
        read_cb translate nread buf_alloc st =
          { st with chan_in := (send (Int.toNat nread) st.chan_in).1 }) ∧
      (should_send (send (Int.toNat nread) st.chan_in).1 = false →
        read_cb translate nread buf_alloc st =
          stop_readS true
            { st with chan_in := (send (Int.toNat nread) st.chan_in).1 })) ∧
    (nread = UV_EOF →
      read_cb translate nread buf_alloc st =
        i_closeS none (if buf_alloc then { st with buf_freed := true } else st)) ∧
    (nread < 0 → nread ≠ UV_EOF →
      read_cb translate nread buf_alloc st =
        i_closeS (some (translate nread))
          (if buf_alloc then { st with buf_freed := true } else st)) := by
  refine ⟨?_, ?_, ?_, ?_⟩
  · intro hn hc
    have hw : writableWrite (Int.toNat nread) st.chan_in =
        (false, st.chan_in) := by
      simp [writableWrite, send, hc]
    simp [read_cb, hn, hw]
  · intro hn hc
    have hw := writableWrite_open (Int.toNat nread) st.chan_in hc
    constructor
    · intro hsend
      simp [read_cb, hn, hw, writableShouldWrite, hsend]
    · intro hsend
      simp [read_cb, hn, hw, writableShouldWrite, hsend]
  · intro he
    subst he
    norm_num [read_cb, UV_EOF]
  · intro hneg hne
    have h0 : ¬ 0 < nread := by omega
    simp [read_cb, h0, hne, hneg]

/-- C7 (witness): a concrete read completion of 3 bytes on a fresh
socket lands the block in the inbound channel and keeps reading. -/
theorem read_cb_spec_check :
    read_cb (fun n => n) 3 true sock0 =
      { sock0 with chan_in := (send (Int.toNat 3) sock0.chan_in).1 } :=
  ((read_cb_spec (fun n => n) 3 true sock0).2.1 (by decide) (by decide)).1
    (by decide)

/-- C8 (code_bug evidence): the write completion handler on a pimpl
whose only in-flight descriptor is `(1, 10)`.  For an unknown request
identity (99) the code calls `i_close` but, lacking a `return`, then
dereferences the end iterator: the model reports the close AND the
undefined-behaviour marker, where the claim requires no further
processing.  For the known request (1) the lookup succeeds,
`cached_bytes_` drops by exactly the recorded length 10 and the
descriptor is removed. -/
theorem read_again_behaviour :
    ((read_again 99 0 pimpl0).ub = true ∧
      (read_again 99 0 pimpl0).pimpl.closed_ = true) ∧
    ((read_again 1 0 pimpl0).ub = false ∧
      (read_again 1 0 pimpl0).pimpl.cached_bytes_ =
        pimpl0.cached_bytes_ - 10 ∧
      (read_again 1 0 pimpl0).pimpl.write_reqs_ = []) := by
  decide

end LibQ
